import Mathlib

/-!
# FPS3010 asyn port driver (blctrl/fps3010): embedding and verification

Sources embedded: `fpsApp/src/drvfps.cpp` (class `blcfps`, `fpsStatePrint`,
`blcfpsConfigure`) and the constants of `fpsApp/src/fps3010.h`.

Two collaborators are outside the repository and enter the model as follows.

* The vendor library (`FPS_*` functions) is a record of answer functions over an
  arbitrary device state `σ` (`Sdk σ`); the general theorems quantify over it and
  the concrete runs use the simulated device `simSdk`.  An output pointer is an
  `Option`: `none` means the callee left the pointee as it was.
* The host framework (`asynPortDriver`): the parameter library is a typed table
  per address (`paramVal`, `getIntegerParam`, ...), `getAddress` validates the
  address against `maxAddr`, and the status of `callParamCallbacks` is an input
  (`cbStatus`) because the fan-out to observers is the business of the host.

Machine integers (`int`, `bln32`, `epicsInt32`) are `Int`; the driver does no
arithmetic on them, only `int -> unsigned int` conversions (`toUnsigned`).  A
`double` is only copied by the driver; it is carried as a rational number.
-/

namespace Fps3010

/-! ## fps3010.h -/

/-- A `double` value; the driver copies it and never computes with it. -/
abbrev Double := ℚ

def FPS_Ok : Int := 0
def FPS_Error : Int := -1
def FPS_Timeout : Int := 1
def FPS_NotConnected : Int := 2
def FPS_DriverError : Int := 3
def FPS_DeviceLocked : Int := 7
def FPS_Unknown : Int := 8
def FPS_NoDevice : Int := 9
def FPS_NoAxis : Int := 10

/-- Interface types (`typedef enum ... FPS_InterfaceType`). -/
inductive FPS_InterfaceType
  | IfNone
  | IfUsb
  | IfTcp
  | IfAll
  deriving DecidableEq, Repr

/-- Numeric value of an interface type (0x00, 0x01, 0x02, 0x03). -/
def FPS_InterfaceType.toNat : FPS_InterfaceType → Nat
  | FPS_InterfaceType.IfNone => 0
  | FPS_InterfaceType.IfUsb => 1
  | FPS_InterfaceType.IfTcp => 2
  | FPS_InterfaceType.IfAll => 3

/-- Conversion `int -> unsigned int` (32 bit). -/
def toUnsigned (i : Int) : Nat := (i % 4294967296).toNat

/-- One call into the vendor library, with the arguments passed by value. -/
inductive SdkCall
  | discover (ifaces : FPS_InterfaceType)
  | connect (devNo : Nat)
  | disconnect (devNo : Nat)
  | getDeviceStatus (devNo : Nat)
  | getAxisStatus (devNo : Nat) (axisNo : Nat)
  | startAdjustment (devNo : Nat)
  | resetAxis (devNo : Nat) (axisNo : Nat)
  | getPosition (devNo : Nat) (axisNo : Nat)
  deriving DecidableEq, Repr

/-- Answer of a library function without outputs: new device state and error code. -/
structure CodeAnswer (σ : Type) where
  hw : σ
  code : Int

/-- Answer of `FPS_discover`. -/
structure DiscoverAnswer (σ : Type) where
  hw : σ
  code : Int
  devCount : Option Nat

/-- Answer of `FPS_getDeviceStatus`. -/
structure DeviceStatusAnswer (σ : Type) where
  hw : σ
  code : Int
  adjust : Option Int
  align : Option Int

/-- Answer of `FPS_getAxisStatus`. -/
structure AxisStatusAnswer (σ : Type) where
  hw : σ
  code : Int
  valid : Option Int
  error : Option Int

/-- Answer of `FPS_getPosition`. -/
structure PositionAnswer (σ : Type) where
  hw : σ
  code : Int
  position : Option Double

/-- The vendor library as declared in fps3010.h (the functions the driver calls). -/
structure Sdk (σ : Type) where
  FPS_discover : σ → FPS_InterfaceType → DiscoverAnswer σ
  FPS_connect : σ → Nat → CodeAnswer σ
  FPS_disconnect : σ → Nat → CodeAnswer σ
  FPS_getDeviceStatus : σ → Nat → DeviceStatusAnswer σ
  FPS_getAxisStatus : σ → Nat → Nat → AxisStatusAnswer σ
  FPS_startAdjustment : σ → Nat → CodeAnswer σ
  FPS_resetAxis : σ → Nat → Nat → CodeAnswer σ
  FPS_getPosition : σ → Nat → Nat → PositionAnswer σ

/-! ## Host framework: asynDriver / asynPortDriver -/

/-- Status values of the host framework (`asynStatus` and the parameter-library codes). -/
inductive asynStatus
  | asynSuccess
  | asynTimeout
  | asynOverflow
  | asynError
  | asynDisconnected
  | asynDisabled
  | asynParamAlreadyExists
  | asynParamNotFound
  | asynParamWrongType
  | asynParamBadIndex
  | asynParamUndefined
  | asynParamInvalidList
  deriving DecidableEq, Repr

/-- Numeric value of a status, as printed with `%d`. -/
def asynStatus.toInt : asynStatus → Int
  | asynStatus.asynSuccess => 0
  | asynStatus.asynTimeout => 1
  | asynStatus.asynOverflow => 2
  | asynStatus.asynError => 3
  | asynStatus.asynDisconnected => 4
  | asynStatus.asynDisabled => 5
  | asynStatus.asynParamAlreadyExists => 6
  | asynStatus.asynParamNotFound => 7
  | asynStatus.asynParamWrongType => 8
  | asynStatus.asynParamBadIndex => 9
  | asynStatus.asynParamUndefined => 10
  | asynStatus.asynParamInvalidList => 11

/-- Parameter types used by the driver. -/
inductive asynParamType
  | asynParamInt32
  | asynParamFloat64
  deriving DecidableEq, Repr

/-- One slot of the parameter library: its type and its value, `none` while undefined. -/
inductive paramVal
  | int32 (value : Option Int)
  | float64 (value : Option Double)
  deriving DecidableEq, Repr

/-- Type of a slot. -/
def paramVal.type : paramVal → asynParamType
  | paramVal.int32 _ => asynParamType.asynParamInt32
  | paramVal.float64 _ => asynParamType.asynParamFloat64

/-- Parameters of one address, in creation order. -/
abbrev paramList := List paramVal

/-- Host: `paramList::setInteger`. -/
def paramList.setInteger (pl : paramList) (index : Int) (value : Int) : asynStatus × paramList :=
  if index < 0 ∨ (pl.length : Int) ≤ index then (asynStatus.asynParamBadIndex, pl)
  else match pl[index.toNat]? with
    | some (paramVal.int32 _) =>
        (asynStatus.asynSuccess, pl.set index.toNat (paramVal.int32 (some value)))
    | _ => (asynStatus.asynParamWrongType, pl)

/-- Host: `paramList::setDouble`. -/
def paramList.setDouble (pl : paramList) (index : Int) (value : Double) : asynStatus × paramList :=
  if index < 0 ∨ (pl.length : Int) ≤ index then (asynStatus.asynParamBadIndex, pl)
  else match pl[index.toNat]? with
    | some (paramVal.float64 _) =>
        (asynStatus.asynSuccess, pl.set index.toNat (paramVal.float64 (some value)))
    | _ => (asynStatus.asynParamWrongType, pl)

/-- Host: `paramList::getInteger`; the value is 0 unless the status is success. -/
def paramList.getInteger (pl : paramList) (index : Int) : asynStatus × Int :=
  if index < 0 ∨ (pl.length : Int) ≤ index then (asynStatus.asynParamBadIndex, 0)
  else match pl[index.toNat]? with
    | some (paramVal.int32 (some v)) => (asynStatus.asynSuccess, v)
    | some (paramVal.int32 none) => (asynStatus.asynParamUndefined, 0)
    | _ => (asynStatus.asynParamWrongType, 0)

/-- Host: `paramList::getDouble`; the value is 0 unless the status is success. -/
def paramList.getDouble (pl : paramList) (index : Int) : asynStatus × Double :=
  if index < 0 ∨ (pl.length : Int) ≤ index then (asynStatus.asynParamBadIndex, 0)
  else match pl[index.toNat]? with
    | some (paramVal.float64 (some v)) => (asynStatus.asynSuccess, v)
    | some (paramVal.float64 none) => (asynStatus.asynParamUndefined, 0)
    | _ => (asynStatus.asynParamWrongType, 0)

/-- Host: `asynPortDriver::setIntegerParam(list, index, value)`. -/
def setIntegerParam (params : List paramList) (list : Int) (index : Int) (value : Int) :
    asynStatus × List paramList :=
  if list < 0 ∨ (params.length : Int) ≤ list then (asynStatus.asynParamInvalidList, params)
  else match params[list.toNat]? with
    | some pl =>
        let r := pl.setInteger index value
        (r.1, params.set list.toNat r.2)
    | none => (asynStatus.asynParamInvalidList, params)

/-- Host: `asynPortDriver::setDoubleParam(list, index, value)`. -/
def setDoubleParam (params : List paramList) (list : Int) (index : Int) (value : Double) :
    asynStatus × List paramList :=
  if list < 0 ∨ (params.length : Int) ≤ list then (asynStatus.asynParamInvalidList, params)
  else match params[list.toNat]? with
    | some pl =>
        let r := pl.setDouble index value
        (r.1, params.set list.toNat r.2)
    | none => (asynStatus.asynParamInvalidList, params)

/-- Host: `asynPortDriver::getIntegerParam(list, index, &value)`. -/
def getIntegerParam (params : List paramList) (list : Int) (index : Int) : asynStatus × Int :=
  if list < 0 ∨ (params.length : Int) ≤ list then (asynStatus.asynParamInvalidList, 0)
  else match params[list.toNat]? with
    | some pl => pl.getInteger index
    | none => (asynStatus.asynParamInvalidList, 0)

/-- Host: `asynPortDriver::getDoubleParam(list, index, &value)`. -/
def getDoubleParam (params : List paramList) (list : Int) (index : Int) : asynStatus × Double :=
  if list < 0 ∨ (params.length : Int) ≤ list then (asynStatus.asynParamInvalidList, 0)
  else match params[list.toNat]? with
    | some pl => pl.getDouble index
    | none => (asynStatus.asynParamInvalidList, 0)

/-- Host: `asynPortDriver::createParam`: appends a slot of the given type to the list of
every address; the index handed back is the number of parameters created before. -/
def createParam (params : List paramList) (type : asynParamType) : List paramList :=
  params.map fun pl =>
    pl ++ [match type with
           | asynParamType.asynParamInt32 => paramVal.int32 none
           | asynParamType.asynParamFloat64 => paramVal.float64 none]

/-- One argument of a printf-style call. -/
inductive FmtArg
  | str (s : String)
  | int (n : Int)
  | dbl (d : Double)
  deriving DecidableEq, Repr

/-- A printf-style call: format string and arguments. -/
structure Formatted where
  fmt : String
  args : List FmtArg
  deriving DecidableEq, Repr

/-- The fields of `asynUser` the driver touches, and the address the user is connected to. -/
structure asynUser where
  reason : Int
  addr : Int
  timestamp : Nat
  errorMessage : Option Formatted
  deriving DecidableEq, Repr

/-! ## drvfps.cpp -/

def driverName : String := "blcfpszzhDriver"

/-- The driver object: the members of `blcfps` and the state it inherits from
`asynPortDriver` (port name, `maxAddr`, parameter library, time stamp). -/
structure blcfps where
  portName : String
  maxAddr : Nat
  params : List paramList
  timeStamp : Nat
  type : FPS_InterfaceType
  devNum : Nat
  devNo : Nat
  adjust : Int
  align : Int
  valid : Int
  error : Int
  position : Double
  deriving DecidableEq, Repr

/-- Everything outside the driver object: the device behind the vendor library, the
calls made into it so far, the lines written to `cout` and the `asynPrint` records. -/
structure Env (σ : Type) where
  hw : σ
  calls : List SdkCall
  cout : List String
  trace : List Formatted

/-- A driver object in its environment. -/
structure World (σ : Type) where
  drv : blcfps
  env : Env σ

/-- Content of the members the constructor never assigns (`devNum` is an output of
`FPS_discover`, the others are outputs of the status and position queries). -/
structure Uninit where
  devNum : Nat
  adjust : Int
  align : Int
  valid : Int
  error : Int
  position : Double
  deriving DecidableEq, Repr

/-- Parameter indices, as handed out by the six `createParam` calls of the constructor. -/
def adjust1 : Int := 0
def align2 : Int := 1
def axisValid3 : Int := 2
def axisSignalWeak4 : Int := 3
def getPosition5 : Int := 4
def reset6 : Int := 5

/-- Translation `void fpsStatePrint(int status)`: the lines written to `cout`. -/
def fpsStatePrint (status : Int) : List String :=
  if status = 0 then ["FPS_ OK"]
  else if status = -1 then ["Unspecified error"]
  else if status = 1 then ["FPS timeout"]
  else if status = 2 then ["FPS_NotConnected"]
  else if status = 3 then ["Error in comunication with driver"]
  else if status = 7 then ["Device is already in use by other"]
  else if status = 8 then ["Unknow error"]
  else if status = 9 then ["Invalid device number in function call"]
  else if status = 10 then ["Invalid axis number in function call"]
  else []

/-- Constructor `blcfps::blcfps(portName, devNo_)`: base class with 3 addresses, member
`type(IfUsb)`, then discover, connect, startAdjustment (codes assigned to a local and
never read), then the six parameters. -/
def blcfps.new {σ : Type} (sdk : Sdk σ) (env : Env σ) (portName : String) (devNo_ : Int)
    (timeStamp : Nat) (raw : Uninit) : World σ :=
  let maxAddr := 3
  let params0 : List paramList := List.replicate maxAddr []
  let type := FPS_InterfaceType.IfUsb
  let devNo := toUnsigned devNo_
  let d := sdk.FPS_discover env.hw type
  let devNum := d.devCount.getD raw.devNum
  let c := sdk.FPS_connect d.hw devNo
  let a := sdk.FPS_startAdjustment c.hw devNo
  let params1 := createParam params0 asynParamType.asynParamInt32
  let params2 := createParam params1 asynParamType.asynParamInt32
  let params3 := createParam params2 asynParamType.asynParamInt32
  let params4 := createParam params3 asynParamType.asynParamInt32
  let params5 := createParam params4 asynParamType.asynParamFloat64
  let params6 := createParam params5 asynParamType.asynParamInt32
  { drv :=
      { portName := portName, maxAddr := maxAddr, params := params6, timeStamp := timeStamp,
        type := type, devNum := devNum, devNo := devNo,
        adjust := raw.adjust, align := raw.align, valid := raw.valid, error := raw.error,
        position := raw.position },
    env :=
      { env with
        hw := a.hw,
        calls := env.calls ++ [SdkCall.discover type, SdkCall.connect devNo,
                               SdkCall.startAdjustment devNo] } }

/-- Host: `asynPortDriver::getAddress`: the address of the user, -1 standing for 0, is
refused with `asynError` unless it lies in `0 .. maxAddr-1`. -/
def getAddress (this : blcfps) (pasynUser : asynUser) : asynStatus × Int :=
  let address := if pasynUser.addr = -1 then 0 else pasynUser.addr
  if address < 0 ∨ (this.maxAddr : Int) - 1 < address then (asynStatus.asynError, address)
  else (asynStatus.asynSuccess, address)

/-- Result of a read entry point: returned status, what was stored through `value`
(`none` when the pointer was not written), the user record and the world afterwards. -/
structure ReadOutcome (α : Type) (σ : Type) where
  status : asynStatus
  value : Option α
  pasynUser : asynUser
  world : World σ

/-- Result of `writeInt32`. -/
structure WriteOutcome (σ : Type) where
  status : asynStatus
  pasynUser : asynUser
  world : World σ

/-- Method `asynStatus blcfps::readInt32(asynUser *pasynUser, epicsInt32 *value)`. -/
def readInt32 {σ : Type} (sdk : Sdk σ) (w : World σ) (pasynUser : asynUser) :
    ReadOutcome Int σ :=
  let function := pasynUser.reason
  let timeStamp := w.drv.timeStamp
  let functionName := "readInt32"
  let ga := getAddress w.drv pasynUser
  if ga.1 ≠ asynStatus.asynSuccess then
    { status := ga.1, value := none, pasynUser := pasynUser, world := w }
  else
    let addr := ga.2
    let w1 : World σ :=
      if function = adjust1 then
        let r := sdk.FPS_getDeviceStatus w.env.hw w.drv.devNo
        let adjust := r.adjust.getD w.drv.adjust
        let align := r.align.getD w.drv.align
        let p1 := (setIntegerParam w.drv.params addr adjust1 adjust).2
        let p2 := (setIntegerParam p1 addr align2 align).2
        { drv := { w.drv with adjust := adjust, align := align, params := p2 },
          env := { w.env with
                   hw := r.hw,
                   calls := w.env.calls ++ [SdkCall.getDeviceStatus w.drv.devNo] } }
      else w
    let w2 : World σ :=
      if function = axisValid3 then
        let r := sdk.FPS_getAxisStatus w1.env.hw w1.drv.devNo (toUnsigned addr)
        let valid := r.valid.getD w1.drv.valid
        let error := r.error.getD w1.drv.error
        let p1 := (setIntegerParam w1.drv.params addr axisValid3 valid).2
        let p2 := (setIntegerParam p1 addr axisSignalWeak4 error).2
        { drv := { w1.drv with valid := valid, error := error, params := p2 },
          env := { w1.env with
                   hw := r.hw,
                   calls := w1.env.calls ++
                     [SdkCall.getAxisStatus w1.drv.devNo (toUnsigned addr)] } }
      else w1
    let g := getIntegerParam w2.drv.params addr function
    let status := g.1
    let value := g.2
    let pasynUser1 := { pasynUser with timestamp := timeStamp }
    if status ≠ asynStatus.asynSuccess then
      { status := status, value := some value,
        pasynUser :=
          { pasynUser1 with
            errorMessage := some
              { fmt := "%s:%s: status=%d, function=%d, value=%d",
                args := [FmtArg.str driverName, FmtArg.str functionName,
                         FmtArg.int status.toInt, FmtArg.int function, FmtArg.int value] } },
        world := w2 }
    else
      { status := status, value := some value, pasynUser := pasynUser1,
        world :=
          { w2 with
            env := { w2.env with
                     trace := w2.env.trace ++
                       [{ fmt := "%s:%s: function=%d, value=%d\n",
                          args := [FmtArg.str driverName, FmtArg.str functionName,
                                   FmtArg.int function, FmtArg.int value] }] } } }

/-- Method `asynStatus blcfps::writeInt32(asynUser *pasynUser, epicsInt32 value)`;
`cbStatus` is what the host returns from `callParamCallbacks(addr, addr)`. -/
def writeInt32 {σ : Type} (sdk : Sdk σ) (cbStatus : asynStatus) (w : World σ)
    (pasynUser : asynUser) (value : Int) : WriteOutcome σ :=
  let function := pasynUser.reason
  let functionName := "writeInt32"
  let ga := getAddress w.drv pasynUser
  if ga.1 ≠ asynStatus.asynSuccess then
    { status := ga.1, pasynUser := pasynUser, world := w }
  else
    let addr := ga.2
    let w1 : World σ :=
      if function = reset6 then
        let r := sdk.FPS_resetAxis w.env.hw w.drv.devNo (toUnsigned addr)
        { w with
          env := { w.env with
                   hw := r.hw,
                   calls := w.env.calls ++ [SdkCall.resetAxis w.drv.devNo (toUnsigned addr)],
                   cout := w.env.cout ++ fpsStatePrint r.code } }
      else w
    let s := setIntegerParam w1.drv.params addr function value
    let w2 : World σ := { w1 with drv := { w1.drv with params := s.2 } }
    let status := cbStatus
    if status ≠ asynStatus.asynSuccess then
      { status := status,
        pasynUser :=
          { pasynUser with
            errorMessage := some
              { fmt := "%s:%s: status=%d, function=%d, value=%d",
                args := [FmtArg.str driverName, FmtArg.str functionName,
                         FmtArg.int status.toInt, FmtArg.int function, FmtArg.int value] } },
        world := w2 }
    else
      { status := status, pasynUser := pasynUser,
        world :=
          { w2 with
            env := { w2.env with
                     trace := w2.env.trace ++
                       [{ fmt := "%s:%s: function=%d, value=%d\n",
                          args := [FmtArg.str driverName, FmtArg.str functionName,
                                   FmtArg.int function, FmtArg.int value] }] } } }

/-- Method `asynStatus blcfps::readFloat64(asynUser *pasynUser, epicsFloat64 *value)`. -/
def readFloat64 {σ : Type} (sdk : Sdk σ) (w : World σ) (pasynUser : asynUser) :
    ReadOutcome Double σ :=
  let function := pasynUser.reason
  let timeStamp := w.drv.timeStamp
  let functionName := "readFloat64"
  let ga := getAddress w.drv pasynUser
  if ga.1 ≠ asynStatus.asynSuccess then
    { status := ga.1, value := none, pasynUser := pasynUser, world := w }
  else
    let addr := ga.2
    let w1 : World σ :=
      if function = getPosition5 then
        let r := sdk.FPS_getPosition w.env.hw w.drv.devNo (toUnsigned addr)
        let position := r.position.getD w.drv.position
        let p1 := (setDoubleParam w.drv.params addr getPosition5 position).2
        { drv := { w.drv with position := position, params := p1 },
          env := { w.env with
                   hw := r.hw,
                   calls := w.env.calls ++ [SdkCall.getPosition w.drv.devNo (toUnsigned addr)] } }
      else w
    let g := getDoubleParam w1.drv.params addr function
    let status := g.1
    let value := g.2
    let pasynUser1 := { pasynUser with timestamp := timeStamp }
    if status ≠ asynStatus.asynSuccess then
      { status := status, value := some value,
        pasynUser :=
          { pasynUser1 with
            errorMessage := some
              { fmt := "%s:%s: status=%d, function=%d, value=%f",
                args := [FmtArg.str driverName, FmtArg.str functionName,
                         FmtArg.int status.toInt, FmtArg.int function, FmtArg.dbl value] } },
        world := w1 }
    else
      { status := status, value := some value, pasynUser := pasynUser1,
        world :=
          { w1 with
            env := { w1.env with
                     trace := w1.env.trace ++
                       [{ fmt := "%s:%s: function=%d, value=%f\n",
                          args := [FmtArg.str driverName, FmtArg.str functionName,
                                   FmtArg.int function, FmtArg.dbl value] }] } } }

/-- Destructor `blcfps::~blcfps()`: disconnects the device. -/
def blcfps.delete {σ : Type} (sdk : Sdk σ) (w : World σ) : Env σ :=
  let r := sdk.FPS_disconnect w.env.hw w.drv.devNo
  { w.env with hw := r.hw, calls := w.env.calls ++ [SdkCall.disconnect w.drv.devNo] }

/-- Shell binding `int blcfpsConfigure(const char* portName, int devNo)`: constructs one
driver object and returns `asynSuccess`. -/
def blcfpsConfigure {σ : Type} (sdk : Sdk σ) (env : Env σ) (portName : String) (devNo : Int)
    (timeStamp : Nat) (raw : Uninit) : Int × World σ :=
  let pblcfps := blcfps.new sdk env portName devNo timeStamp raw
  (asynStatus.asynSuccess.toInt, pblcfps)

/-! ## Well-formed driver objects -/

/-- Types of the six parameters, in creation order. -/
def paramTypes : List asynParamType :=
  [asynParamType.asynParamInt32, asynParamType.asynParamInt32, asynParamType.asynParamInt32,
   asynParamType.asynParamInt32, asynParamType.asynParamFloat64, asynParamType.asynParamInt32]

/-- What the constructor establishes and every method keeps: three addresses, each with
the six parameters `adjust, align, axisValid, axisSignalWeak, getPosition, reset`. -/
def blcfps.WF (this : blcfps) : Prop :=
  this.maxAddr = 3 ∧ this.params.length = 3 ∧
    ∀ pl ∈ this.params, pl.map paramVal.type = paramTypes

instance (this : blcfps) : Decidable this.WF := by
  unfold blcfps.WF; infer_instance

/-! ## A simulated device for concrete runs -/

/-- One axis of the simulated device. -/
structure SimAxis where
  valid : Int
  error : Int
  position : Double
  deriving DecidableEq, Repr

/-- Simulated device: one device (sequence number 0) with the listed enabled axes. -/
structure SimHw where
  locked : Bool
  connected : Bool
  adjust : Int
  align : Int
  axes : List SimAxis
  deriving DecidableEq, Repr

/-- Error code of the simulated device for a request on `devNo` (and `axisNo`, if any):
locked by another application, unknown device, not connected, unknown axis, or Ok. -/
def SimHw.check (hw : SimHw) (devNo : Nat) (axisNo : Option Nat) : Int :=
  if hw.locked then FPS_DeviceLocked
  else if devNo ≠ 0 then FPS_NoDevice
  else if ¬ hw.connected then FPS_NotConnected
  else match axisNo with
    | some n => if n < hw.axes.length then FPS_Ok else FPS_NoAxis
    | none => FPS_Ok

/-- Simulated vendor library following the function descriptions of fps3010.h: a failing
call writes no output; `FPS_resetAxis` sets the position of the axis to 0 and clears its
error flag. -/
def simSdk : Sdk SimHw where
  FPS_discover hw _ :=
    { hw := hw, code := FPS_Ok, devCount := some (if hw.locked then 0 else 1) }
  FPS_connect hw devNo :=
    if hw.locked then { hw := hw, code := FPS_DeviceLocked }
    else if devNo ≠ 0 then { hw := hw, code := FPS_NoDevice }
    else { hw := { hw with connected := true }, code := FPS_Ok }
  FPS_disconnect hw devNo :=
    if hw.check devNo none = FPS_Ok then { hw := { hw with connected := false }, code := FPS_Ok }
    else { hw := hw, code := hw.check devNo none }
  FPS_getDeviceStatus hw devNo :=
    if hw.check devNo none = FPS_Ok then
      { hw := hw, code := FPS_Ok, adjust := some hw.adjust, align := some hw.align }
    else { hw := hw, code := hw.check devNo none, adjust := none, align := none }
  FPS_getAxisStatus hw devNo axisNo :=
    match hw.axes[axisNo]? with
    | some ax =>
        if hw.check devNo (some axisNo) = FPS_Ok then
          { hw := hw, code := FPS_Ok, valid := some ax.valid, error := some ax.error }
        else { hw := hw, code := hw.check devNo (some axisNo), valid := none, error := none }
    | none => { hw := hw, code := hw.check devNo (some axisNo), valid := none, error := none }
  FPS_startAdjustment hw devNo :=
    if hw.check devNo none = FPS_Ok then { hw := { hw with adjust := 1 }, code := FPS_Ok }
    else { hw := hw, code := hw.check devNo none }
  FPS_resetAxis hw devNo axisNo :=
    match hw.axes[axisNo]? with
    | some ax =>
        if hw.check devNo (some axisNo) = FPS_Ok then
          { hw := { hw with axes := hw.axes.set axisNo { ax with error := 0, position := 0 } },
            code := FPS_Ok }
        else { hw := hw, code := hw.check devNo (some axisNo) }
    | none => { hw := hw, code := hw.check devNo (some axisNo) }
  FPS_getPosition hw devNo axisNo :=
    match hw.axes[axisNo]? with
    | some ax =>
        if hw.check devNo (some axisNo) = FPS_Ok then
          { hw := hw, code := FPS_Ok, position := some ax.position }
        else { hw := hw, code := hw.check devNo (some axisNo), position := none }
    | none => { hw := hw, code := hw.check devNo (some axisNo), position := none }

/-- An environment with nothing called or printed yet. -/
def Env.start {σ : Type} (hw : σ) : Env σ :=
  { hw := hw, calls := [], cout := [], trace := [] }

/-- Members left unassigned by the constructor, all zero. -/
def Uninit.zero : Uninit :=
  { devNum := 0, adjust := 0, align := 0, valid := 0, error := 0, position := 0 }

/-- A request for parameter `reason` at address `addr`. -/
def asynUser.request (reason : Int) (addr : Int) : asynUser :=
  { reason := reason, addr := addr, timestamp := 0, errorMessage := none }

/-- A three-axis simulated device, not yet connected. -/
def simHw : SimHw :=
  { locked := false, connected := false, adjust := 0, align := 0,
    axes := [{ valid := 1, error := 1, position := 5 },
             { valid := 1, error := 0, position := 7 },
             { valid := 0, error := 1, position := 9 }] }

/-- The driver constructed on the three-axis simulated device (sequence number 0). -/
def simWorld : World SimHw :=
  blcfps.new simSdk (Env.start simHw) "FPS" 0 0 Uninit.zero

/-- The driver constructed on a device that another application holds. -/
def lockedWorld : World SimHw :=
  blcfps.new simSdk (Env.start { simHw with locked := true }) "FPS" 0 0 Uninit.zero

/-- The driver constructed on a device with a single enabled axis. -/
def oneAxisWorld : World SimHw :=
  blcfps.new simSdk
    (Env.start { simHw with axes := [{ valid := 1, error := 0, position := 5 }] })
    "FPS" 0 0 Uninit.zero

/-- A vendor library honours reset when, after a successful `FPS_resetAxis` of an axis,
it reports position 0 and a cleared error flag for that axis. -/
def HonoursReset {σ : Type} (sdk : Sdk σ) : Prop :=
  ∀ (hw : σ) (devNo axisNo : Nat),
    (sdk.FPS_resetAxis hw devNo axisNo).code = FPS_Ok →
      (sdk.FPS_getPosition (sdk.FPS_resetAxis hw devNo axisNo).hw devNo axisNo).position
          = some 0 ∧
        (sdk.FPS_getAxisStatus (sdk.FPS_resetAxis hw devNo axisNo).hw devNo axisNo).error
          = some 0

/-- The three-axis driver after one read of the position and one of the status of axis 0:
the cache of address 0 holds position 5, valid 1 and signalWeak 1. -/
def polledWorld : World SimHw :=
  (readInt32 simSdk
    (readFloat64 simSdk simWorld (asynUser.request getPosition5 0)).world
    (asynUser.request axisValid3 0)).world

/-- The single-axis driver after one successful status read of axis 0. -/
def oneAxisPolled : World SimHw :=
  (readInt32 simSdk oneAxisWorld (asynUser.request axisValid3 0)).world

/-- The three-axis driver after `writeInt32(reset, 0, 1)` on `polledWorld`. -/
def resetWorld : World SimHw :=
  (writeInt32 simSdk asynStatus.asynSuccess polledWorld (asynUser.request reset6 0) 1).world

/-- A vendor library on which every call fails and writes no output. -/
def failSdk : Sdk Unit where
  FPS_discover _ _ := { hw := (), code := FPS_DriverError, devCount := none }
  FPS_connect _ _ := { hw := (), code := FPS_NoDevice }
  FPS_disconnect _ _ := { hw := (), code := FPS_NotConnected }
  FPS_getDeviceStatus _ _ :=
    { hw := (), code := FPS_NotConnected, adjust := none, align := none }
  FPS_getAxisStatus _ _ _ :=
    { hw := (), code := FPS_NotConnected, valid := none, error := none }
  FPS_startAdjustment _ _ := { hw := (), code := FPS_NotConnected }
  FPS_resetAxis _ _ _ := { hw := (), code := FPS_NotConnected }
  FPS_getPosition _ _ _ := { hw := (), code := FPS_NotConnected, position := none }

/-! ## Histories of requests -/

/-- One request of the host to the driver. -/
inductive Request
  | readInt32 (pasynUser : asynUser)
  | writeInt32 (cbStatus : asynStatus) (pasynUser : asynUser) (value : Int)
  | readFloat64 (pasynUser : asynUser)
  deriving DecidableEq, Repr

/-- The world after one request was served. -/
def serve {σ : Type} (sdk : Sdk σ) (w : World σ) : Request → World σ
  | Request.readInt32 pasynUser => (readInt32 sdk w pasynUser).world
  | Request.writeInt32 cbStatus pasynUser value =>
      (writeInt32 sdk cbStatus w pasynUser value).world
  | Request.readFloat64 pasynUser => (readFloat64 sdk w pasynUser).world

/-- The world after a history of requests, served in order. -/
def serveAll {σ : Type} (sdk : Sdk σ) (w : World σ) : List Request → World σ
  | [] => w
  | r :: rs => serveAll sdk (serve sdk w r) rs

/-- What the vendor library wrote through `&adjust`, `&valid` and `&position` during one
request; `none` when it wrote nothing there or was not asked. -/
structure Written where
  adjust : Option Int
  valid : Option Int
  position : Option Double
  deriving DecidableEq, Repr

/-- The outputs the vendor library writes while the request is served in world `w`: those
of `FPS_getDeviceStatus` for an accepted `adjust` read, of `FPS_getAxisStatus` for an
accepted `axisValid` read, of `FPS_getPosition` for an accepted `getPosition` read. -/
def sdkWrites {σ : Type} (sdk : Sdk σ) (w : World σ) : Request → Written
  | Request.readInt32 pasynUser =>
      if (getAddress w.drv pasynUser).1 = asynStatus.asynSuccess then
        if pasynUser.reason = adjust1 then
          { adjust := (sdk.FPS_getDeviceStatus w.env.hw w.drv.devNo).adjust,
            valid := none, position := none }
        else if pasynUser.reason = axisValid3 then
          { adjust := none,
            valid := (sdk.FPS_getAxisStatus w.env.hw w.drv.devNo
              (toUnsigned (getAddress w.drv pasynUser).2)).valid,
            position := none }
        else { adjust := none, valid := none, position := none }
      else { adjust := none, valid := none, position := none }
  | Request.writeInt32 _ _ _ => { adjust := none, valid := none, position := none }
  | Request.readFloat64 pasynUser =>
      if (getAddress w.drv pasynUser).1 = asynStatus.asynSuccess ∧
          pasynUser.reason = getPosition5 then
        { adjust := none, valid := none,
          position := (sdk.FPS_getPosition w.env.hw w.drv.devNo
            (toUnsigned (getAddress w.drv pasynUser).2)).position }
      else { adjust := none, valid := none, position := none }

/-- The value the vendor library last wrote through one of the three output pointers
during a history that starts in world `w`, or `init` if it never wrote there. -/
def lastWritten {σ : Type} {α : Type} (sdk : Sdk σ) (out : Written → Option α) :
    World σ → List Request → α → α
  | _, [], init => init
  | w, r :: rs, init =>
      lastWritten sdk out (serve sdk w r) rs ((out (sdkWrites sdk w r)).getD init)

/-- A vendor library whose first status or position query succeeds (adjust 1, align 1,
valid 1, error 1, position 5) and whose later queries time out and write nothing; the
device state counts the queries. -/
def flakySdk : Sdk Nat where
  FPS_discover n _ := { hw := n, code := FPS_Ok, devCount := some 1 }
  FPS_connect n _ := { hw := n, code := FPS_Ok }
  FPS_disconnect n _ := { hw := n, code := FPS_Ok }
  FPS_getDeviceStatus n _ :=
    if n = 0 then { hw := n + 1, code := FPS_Ok, adjust := some 1, align := some 1 }
    else { hw := n + 1, code := FPS_Timeout, adjust := none, align := none }
  FPS_getAxisStatus n _ _ :=
    if n = 0 then { hw := n + 1, code := FPS_Ok, valid := some 1, error := some 1 }
    else { hw := n + 1, code := FPS_Timeout, valid := none, error := none }
  FPS_startAdjustment n _ := { hw := n, code := FPS_Ok }
  FPS_resetAxis n _ _ := { hw := n, code := FPS_Ok }
  FPS_getPosition n _ _ :=
    if n = 0 then { hw := n + 1, code := FPS_Ok, position := some 5 }
    else { hw := n + 1, code := FPS_Timeout, position := none }

/-- The driver constructed on `flakySdk`, with all unassigned members zero. -/
def flakyWorld : World Nat :=
  blcfps.new flakySdk (Env.start 0) "FPS" 0 0 Uninit.zero

/-! ## Auxiliary facts -/

theorem toUnsigned_natCast (a : Nat) (h : a < 4294967296) : toUnsigned (a : Int) = a := by
  unfold toUnsigned
  rw [Int.emod_eq_of_lt (by omega) (by omega)]
  simp

theorem paramVal.eq_int32_of_type (v : paramVal) (h : v.type = asynParamType.asynParamInt32) :
    ∃ a, v = paramVal.int32 a := by
  cases v with
  | int32 a => exact ⟨a, rfl⟩
  | float64 a => simp [paramVal.type] at h

theorem paramVal.eq_float64_of_type (v : paramVal)
    (h : v.type = asynParamType.asynParamFloat64) : ∃ a, v = paramVal.float64 a := by
  cases v with
  | int32 a => simp [paramVal.type] at h
  | float64 a => exact ⟨a, rfl⟩

/-- The six slots of one address of a well-formed driver object. -/
theorem paramList.row_shape (pl : paramList) (h : pl.map paramVal.type = paramTypes) :
    ∃ a b c d e f, pl = [paramVal.int32 a, paramVal.int32 b, paramVal.int32 c,
      paramVal.int32 d, paramVal.float64 e, paramVal.int32 f] := by
  unfold paramTypes at h
  rcases pl with _ | ⟨x0, _ | ⟨x1, _ | ⟨x2, _ | ⟨x3, _ | ⟨x4, _ | ⟨x5, _ | ⟨x6, t⟩⟩⟩⟩⟩⟩⟩ <;>
    simp at h
  obtain ⟨h0, h1, h2, h3, h4, h5⟩ := h
  obtain ⟨a, rfl⟩ := x0.eq_int32_of_type h0
  obtain ⟨b, rfl⟩ := x1.eq_int32_of_type h1
  obtain ⟨c, rfl⟩ := x2.eq_int32_of_type h2
  obtain ⟨d, rfl⟩ := x3.eq_int32_of_type h3
  obtain ⟨e, rfl⟩ := x4.eq_float64_of_type h4
  obtain ⟨f, rfl⟩ := x5.eq_int32_of_type h5
  exact ⟨a, b, c, d, e, f, rfl⟩

/-- The parameter library of a well-formed driver object: three addresses of six slots. -/
theorem blcfps.WF.params_shape {this : blcfps} (h : this.WF) :
    ∃ l0 l1 l2 : paramList, this.params = [l0, l1, l2] ∧
      l0.map paramVal.type = paramTypes ∧ l1.map paramVal.type = paramTypes ∧
      l2.map paramVal.type = paramTypes := by
  obtain ⟨_, hlen, hall⟩ := h
  rcases hp : this.params with _ | ⟨l0, _ | ⟨l1, _ | ⟨l2, _ | ⟨l3, t⟩⟩⟩⟩ <;>
    rw [hp] at hlen <;> simp at hlen
  rw [hp] at hall
  exact ⟨l0, l1, l2, rfl, hall l0 (by simp), hall l1 (by simp), hall l2 (by simp)⟩

/-- The constructor yields a well-formed driver object, whatever the vendor library does. -/
theorem blcfps.new_WF {σ : Type} (sdk : Sdk σ) (env : Env σ) (portName : String)
    (devNo_ : Int) (timeStamp : Nat) (raw : Uninit) :
    (blcfps.new sdk env portName devNo_ timeStamp raw).drv.WF := by
  simp [blcfps.new, blcfps.WF, createParam, paramTypes, paramVal.type, List.replicate]

/-- An integer store keeps the type of every slot of the address. -/
theorem paramList.setInteger_types (pl : paramList) (index : Int) (value : Int) :
    (pl.setInteger index value).2.map paramVal.type = pl.map paramVal.type := by
  unfold paramList.setInteger
  split_ifs with h
  · rfl
  · split
    · rename_i x hx
      apply List.ext_getElem?
      intro k
      by_cases hk : index.toNat = k
      · subst hk
        simp [List.getElem?_map, List.getElem?_set, hx, paramVal.type]
        exact (List.getElem?_eq_some_iff.mp hx).1
      · simp [List.getElem?_map, List.getElem?_set, hk]
    · rfl

/-- A float64 store keeps the type of every slot of the address. -/
theorem paramList.setDouble_types (pl : paramList) (index : Int) (value : Double) :
    (pl.setDouble index value).2.map paramVal.type = pl.map paramVal.type := by
  unfold paramList.setDouble
  split_ifs with h
  · rfl
  · split
    · rename_i x hx
      apply List.ext_getElem?
      intro k
      by_cases hk : index.toNat = k
      · subst hk
        simp [List.getElem?_map, List.getElem?_set, hx, paramVal.type]
        exact (List.getElem?_eq_some_iff.mp hx).1
      · simp [List.getElem?_map, List.getElem?_set, hk]
    · rfl

/-- Stores keep the number of addresses and the slot types of every address. -/
theorem setIntegerParam_types (params : List paramList) (list index value : Int) :
    (setIntegerParam params list index value).2.map (List.map paramVal.type) =
      params.map (List.map paramVal.type) := by
  unfold setIntegerParam
  split_ifs with h
  · rfl
  · split
    · rename_i pl hpl
      apply List.ext_getElem?
      intro k
      by_cases hk : list.toNat = k
      · subst hk
        simp [List.getElem?_map, List.getElem?_set, hpl, paramList.setInteger_types]
        exact (List.getElem?_eq_some_iff.mp hpl).1
      · simp [List.getElem?_map, List.getElem?_set, hk]
    · rfl

theorem setDoubleParam_types (params : List paramList) (list index : Int) (value : Double) :
    (setDoubleParam params list index value).2.map (List.map paramVal.type) =
      params.map (List.map paramVal.type) := by
  unfold setDoubleParam
  split_ifs with h
  · rfl
  · split
    · rename_i pl hpl
      apply List.ext_getElem?
      intro k
      by_cases hk : list.toNat = k
      · subst hk
        simp [List.getElem?_map, List.getElem?_set, hpl, paramList.setDouble_types]
        exact (List.getElem?_eq_some_iff.mp hpl).1
      · simp [List.getElem?_map, List.getElem?_set, hk]
    · rfl

/-- Well-formedness depends on `maxAddr` and on the slot types only. -/
theorem blcfps.WF_of_types {this that : blcfps} (h : this.WF)
    (hmax : that.maxAddr = this.maxAddr)
    (htypes : that.params.map (List.map paramVal.type) =
      this.params.map (List.map paramVal.type)) : that.WF := by
  obtain ⟨h1, h2, h3⟩ := h
  refine ⟨by rw [hmax, h1], ?_, ?_⟩
  · have := congrArg List.length htypes
    simpa [h2] using this
  · intro pl hpl
    have hmem : pl.map paramVal.type ∈ that.params.map (List.map paramVal.type) :=
      List.mem_map_of_mem _ hpl
    rw [htypes] at hmem
    obtain ⟨pl2, hpl2, heq⟩ := List.mem_map.mp hmem
    rw [← heq]
    exact h3 pl2 hpl2

/-- Every integer read keeps the driver object well-formed. -/
theorem readInt32_WF {σ : Type} (sdk : Sdk σ) (w : World σ) (pasynUser : asynUser)
    (h : w.drv.WF) : (readInt32 sdk w pasynUser).world.drv.WF := by
  apply blcfps.WF_of_types h <;>
    · unfold readInt32
      simp only []
      split_ifs <;> simp [setIntegerParam_types]

/-- Every integer write keeps the driver object well-formed. -/
theorem writeInt32_WF {σ : Type} (sdk : Sdk σ) (cbStatus : asynStatus) (w : World σ)
    (pasynUser : asynUser) (value : Int) (h : w.drv.WF) :
    (writeInt32 sdk cbStatus w pasynUser value).world.drv.WF := by
  apply blcfps.WF_of_types h <;>
    · unfold writeInt32
      simp only []
      split_ifs <;> simp [setIntegerParam_types]

/-- Every float64 read keeps the driver object well-formed. -/
theorem readFloat64_WF {σ : Type} (sdk : Sdk σ) (w : World σ) (pasynUser : asynUser)
    (h : w.drv.WF) : (readFloat64 sdk w pasynUser).world.drv.WF := by
  apply blcfps.WF_of_types h <;>
    · unfold readFloat64
      simp only []
      split_ifs <;> simp [setDoubleParam_types]

/-! ## C1: the status-code translator -/

/-- C1: `fpsStatePrint` writes exactly one line, the fixed text of the code, for each of
the nine defined status codes, and writes nothing for every other integer. -/
theorem fpsStatePrint_table :
    fpsStatePrint 0 = ["FPS_ OK"] ∧
    fpsStatePrint (-1) = ["Unspecified error"] ∧
    fpsStatePrint 1 = ["FPS timeout"] ∧
    fpsStatePrint 2 = ["FPS_NotConnected"] ∧
    fpsStatePrint 3 = ["Error in comunication with driver"] ∧
    fpsStatePrint 7 = ["Device is already in use by other"] ∧
    fpsStatePrint 8 = ["Unknow error"] ∧
    fpsStatePrint 9 = ["Invalid device number in function call"] ∧
    fpsStatePrint 10 = ["Invalid axis number in function call"] ∧
    ∀ status : Int, status ∉ [0, -1, 1, 2, 3, 7, 8, 9, 10] → fpsStatePrint status = [] := by
  refine ⟨by decide, by decide, by decide, by decide, by decide, by decide, by decide,
    by decide, by decide, ?_⟩
  intro status hs
  simp only [List.mem_cons, List.mem_singleton, List.not_mem_nil, or_false, not_or] at hs
  obtain ⟨h0, h1, h2, h3, h4, h5, h6, h7, h8⟩ := hs
  simp [fpsStatePrint, h0, h1, h2, h3, h4, h5, h6, h7, h8]

/-- C1 at the codes 4, 5, 6, 11 and -2: nothing is printed. -/
theorem fpsStatePrint_table_witness :
    fpsStatePrint 4 = [] ∧ fpsStatePrint 5 = [] ∧ fpsStatePrint 6 = [] ∧
      fpsStatePrint 11 = [] ∧ fpsStatePrint (-2) = [] :=
  ⟨fpsStatePrint_table.2.2.2.2.2.2.2.2.2 4 (by decide),
   fpsStatePrint_table.2.2.2.2.2.2.2.2.2 5 (by decide),
   fpsStatePrint_table.2.2.2.2.2.2.2.2.2 6 (by decide),
   fpsStatePrint_table.2.2.2.2.2.2.2.2.2 11 (by decide),
   fpsStatePrint_table.2.2.2.2.2.2.2.2.2 (-2) (by decide)⟩

/-! ## C2, C3: the two refreshing integer reads -/

/-- C2: `readInt32` with function `axisValid` at an address `a` in 0..2 queries the
vendor library once, for axis `a`; when the library reports `valid` and `signalWeak` the
call returns success with value `valid`, and afterwards the cache entries
`(a, axisValid)` and `(a, axisSignalWeak)` hold `valid` and `signalWeak`. -/
theorem readInt32_axisValid {σ : Type} (sdk : Sdk σ) (w : World σ) (pasynUser : asynUser)
    (a : Nat) (valid signalWeak : Int)
    (hwf : w.drv.WF) (ha : a < 3) (haddr : pasynUser.addr = a)
    (hfun : pasynUser.reason = axisValid3)
    (hvalid : (sdk.FPS_getAxisStatus w.env.hw w.drv.devNo a).valid = some valid)
    (herror : (sdk.FPS_getAxisStatus w.env.hw w.drv.devNo a).error = some signalWeak) :
    (readInt32 sdk w pasynUser).status = asynStatus.asynSuccess ∧
    (readInt32 sdk w pasynUser).value = some valid ∧
    (readInt32 sdk w pasynUser).world.env.calls =
      w.env.calls ++ [SdkCall.getAxisStatus w.drv.devNo a] ∧
    getIntegerParam (readInt32 sdk w pasynUser).world.drv.params a axisValid3 =
      (asynStatus.asynSuccess, valid) ∧
    getIntegerParam (readInt32 sdk w pasynUser).world.drv.params a axisSignalWeak4 =
      (asynStatus.asynSuccess, signalWeak) := by
  obtain ⟨l0, l1, l2, hp, h0, h1, h2⟩ := hwf.params_shape
  obtain ⟨a0, b0, c0, d0, e0, f0, rfl⟩ := l0.row_shape h0
  obtain ⟨a1, b1, c1, d1, e1, f1, rfl⟩ := l1.row_shape h1
  obtain ⟨a2, b2, c2, d2, e2, f2, rfl⟩ := l2.row_shape h2
  have hmax := hwf.1
  interval_cases a <;>
    simp [readInt32, getAddress, hp, hmax, haddr, hfun, axisValid3, adjust1, axisSignalWeak4,
      setIntegerParam, getIntegerParam, paramList.setInteger, paramList.getInteger,
      toUnsigned] at hvalid herror ⊢ <;> simp [hvalid, herror]

/-- C2 on the simulated device: after discover and connect(0), reading `axisValid` at
address 1 returns valid = 1 and stores valid = 1, signalWeak = 0 at address 1. -/
theorem readInt32_axisValid_witness :
    simWorld.drv.WF ∧
    (simSdk.FPS_getAxisStatus simWorld.env.hw simWorld.drv.devNo 1).valid = some 1 ∧
    (simSdk.FPS_getAxisStatus simWorld.env.hw simWorld.drv.devNo 1).error = some 0 ∧
    ((readInt32 simSdk simWorld (asynUser.request axisValid3 1)).status
        = asynStatus.asynSuccess ∧
      (readInt32 simSdk simWorld (asynUser.request axisValid3 1)).value = some 1 ∧
      (readInt32 simSdk simWorld (asynUser.request axisValid3 1)).world.env.calls =
        simWorld.env.calls ++ [SdkCall.getAxisStatus simWorld.drv.devNo 1] ∧
      getIntegerParam (readInt32 simSdk simWorld (asynUser.request axisValid3 1)).world.drv.params
        ((1 : Nat) : Int) axisValid3 = (asynStatus.asynSuccess, 1) ∧
      getIntegerParam (readInt32 simSdk simWorld (asynUser.request axisValid3 1)).world.drv.params
        ((1 : Nat) : Int) axisSignalWeak4 = (asynStatus.asynSuccess, 0)) :=
  ⟨by decide, by decide, by decide,
   readInt32_axisValid simSdk simWorld (asynUser.request axisValid3 1) 1 1 0
     (by decide) (by decide) rfl rfl (by decide) (by decide)⟩

/-- C3: `readInt32` with function `adjust` at a valid address makes one
`FPS_getDeviceStatus` call; when the library reports `adjusting` and `aligning` the call
returns success with value `adjusting`, and on return the `adjust` and `align` cache
entries of that address hold the reported `adjusting` and `aligning`. -/
theorem readInt32_adjust {σ : Type} (sdk : Sdk σ) (w : World σ) (pasynUser : asynUser)
    (a : Nat) (adjusting aligning : Int)
    (hwf : w.drv.WF) (ha : a < 3) (haddr : pasynUser.addr = a)
    (hfun : pasynUser.reason = adjust1)
    (hadjust : (sdk.FPS_getDeviceStatus w.env.hw w.drv.devNo).adjust = some adjusting)
    (halign : (sdk.FPS_getDeviceStatus w.env.hw w.drv.devNo).align = some aligning) :
    (readInt32 sdk w pasynUser).status = asynStatus.asynSuccess ∧
    (readInt32 sdk w pasynUser).value = some adjusting ∧
    (readInt32 sdk w pasynUser).world.env.calls =
      w.env.calls ++ [SdkCall.getDeviceStatus w.drv.devNo] ∧
    getIntegerParam (readInt32 sdk w pasynUser).world.drv.params a adjust1 =
      (asynStatus.asynSuccess, adjusting) ∧
    getIntegerParam (readInt32 sdk w pasynUser).world.drv.params a align2 =
      (asynStatus.asynSuccess, aligning) := by
  obtain ⟨l0, l1, l2, hp, h0, h1, h2⟩ := hwf.params_shape
  obtain ⟨a0, b0, c0, d0, e0, f0, rfl⟩ := l0.row_shape h0
  obtain ⟨a1, b1, c1, d1, e1, f1, rfl⟩ := l1.row_shape h1
  obtain ⟨a2, b2, c2, d2, e2, f2, rfl⟩ := l2.row_shape h2
  have hmax := hwf.1
  interval_cases a <;>
    simp [readInt32, getAddress, hp, hmax, haddr, hfun, axisValid3, adjust1, align2,
      setIntegerParam, getIntegerParam, paramList.setInteger, paramList.getInteger,
      hadjust, halign]

/-- C3 on the simulated device: after start of the adjustment the device reports
adjusting = 1, aligning = 0, and both entries of address 2 are refreshed. -/
theorem readInt32_adjust_witness :
    simWorld.drv.WF ∧
    (simSdk.FPS_getDeviceStatus simWorld.env.hw simWorld.drv.devNo).adjust = some 1 ∧
    (simSdk.FPS_getDeviceStatus simWorld.env.hw simWorld.drv.devNo).align = some 0 ∧
    ((readInt32 simSdk simWorld (asynUser.request adjust1 2)).status
        = asynStatus.asynSuccess ∧
      (readInt32 simSdk simWorld (asynUser.request adjust1 2)).value = some 1 ∧
      (readInt32 simSdk simWorld (asynUser.request adjust1 2)).world.env.calls =
        simWorld.env.calls ++ [SdkCall.getDeviceStatus simWorld.drv.devNo] ∧
      getIntegerParam (readInt32 simSdk simWorld (asynUser.request adjust1 2)).world.drv.params
        ((2 : Nat) : Int) adjust1 = (asynStatus.asynSuccess, 1) ∧
      getIntegerParam (readInt32 simSdk simWorld (asynUser.request adjust1 2)).world.drv.params
        ((2 : Nat) : Int) align2 = (asynStatus.asynSuccess, 0)) :=
  ⟨by decide, by decide, by decide,
   readInt32_adjust simSdk simWorld (asynUser.request adjust1 2) 2 1 0
     (by decide) (by decide) rfl rfl (by decide) (by decide)⟩

/-! ## C4: the address of an `adjust` read -/

/-- C5, as found in the code: for each of the five integer parameters, every address in
0..2, every value `v` and every code returned by `FPS_resetAxis`, after `writeInt32` the
cache entry `(address, function)` holds `v` and the call returns the status of the
callback fan-out of the host; when the function is `reset` the call invokes
`FPS_resetAxis(devNo, address)` exactly once and prints the line of the returned code,
otherwise it calls nothing and prints nothing. -/
theorem writeInt32_stores {σ : Type} (sdk : Sdk σ) (cbStatus : asynStatus) (w : World σ)
    (pasynUser : asynUser) (a : Nat) (v : Int)
    (hwf : w.drv.WF) (ha : a < 3) (haddr : pasynUser.addr = a)
    (hfun : pasynUser.reason ∈ [adjust1, align2, axisValid3, axisSignalWeak4, reset6]) :
    getIntegerParam (writeInt32 sdk cbStatus w pasynUser v).world.drv.params a
      pasynUser.reason = (asynStatus.asynSuccess, v) ∧
    (writeInt32 sdk cbStatus w pasynUser v).status = cbStatus ∧
    (pasynUser.reason = reset6 →
      (writeInt32 sdk cbStatus w pasynUser v).world.env.calls =
        w.env.calls ++ [SdkCall.resetAxis w.drv.devNo a] ∧
      (writeInt32 sdk cbStatus w pasynUser v).world.env.cout =
        w.env.cout ++ fpsStatePrint (sdk.FPS_resetAxis w.env.hw w.drv.devNo a).code) ∧
    (pasynUser.reason ≠ reset6 →
      (writeInt32 sdk cbStatus w pasynUser v).world.env.calls = w.env.calls ∧
      (writeInt32 sdk cbStatus w pasynUser v).world.env.cout = w.env.cout) := by
  obtain ⟨l0, l1, l2, hp, h0, h1, h2⟩ := hwf.params_shape
  obtain ⟨a0, b0, c0, d0, e0, f0, rfl⟩ := l0.row_shape h0
  obtain ⟨a1, b1, c1, d1, e1, f1, rfl⟩ := l1.row_shape h1
  obtain ⟨a2, b2, c2, d2, e2, f2, rfl⟩ := l2.row_shape h2
  have hmax := hwf.1
  simp only [List.mem_cons, List.mem_singleton, List.not_mem_nil, or_false] at hfun
  rcases hfun with hf | hf | hf | hf | hf <;> interval_cases a <;>
    by_cases hcb : cbStatus = asynStatus.asynSuccess <;>
    simp [writeInt32, getAddress, hp, hmax, haddr, hf, hcb, axisValid3, adjust1, align2,
      axisSignalWeak4, reset6, setIntegerParam, getIntegerParam, paramList.setInteger,
      paramList.getInteger, toUnsigned]

/-- C5 on a device held by another application: `writeInt32(reset, 2, 0)` gets code 7
from `FPS_resetAxis`, prints the line of code 7, leaves 0 at `(2, reset)` and returns
success. -/
theorem writeInt32_stores_witness :
    lockedWorld.drv.WF ∧
    (simSdk.FPS_resetAxis lockedWorld.env.hw lockedWorld.drv.devNo 2).code = 7 ∧
    getIntegerParam
      (writeInt32 simSdk asynStatus.asynSuccess lockedWorld (asynUser.request reset6 2)
        0).world.drv.params ((2 : Nat) : Int) reset6 = (asynStatus.asynSuccess, 0) ∧
    (writeInt32 simSdk asynStatus.asynSuccess lockedWorld (asynUser.request reset6 2)
        0).status = asynStatus.asynSuccess ∧
    (writeInt32 simSdk asynStatus.asynSuccess lockedWorld (asynUser.request reset6 2)
        0).world.env.cout = lockedWorld.env.cout ++ ["Device is already in use by other"] ∧
    (writeInt32 simSdk asynStatus.asynSuccess lockedWorld (asynUser.request reset6 2)
        0).world.env.calls = lockedWorld.env.calls ++ [SdkCall.resetAxis 0 2] :=
  have h := writeInt32_stores simSdk asynStatus.asynSuccess lockedWorld
    (asynUser.request reset6 2) 2 0 (by decide) (by decide) rfl (by decide)
  ⟨by decide, by decide, h.1, h.2.1, (h.2.2.1 rfl).2, (h.2.2.1 rfl).1⟩

/-- C5 as stated fails at the registered parameter `getPosition`: it is a float64
parameter, the integer store is refused, and after `writeInt32(getPosition, 0, 7)` the
cache is as before, with no value at `(0, getPosition)`. -/
theorem writeInt32_stores_counterexample :
    getIntegerParam
      (writeInt32 simSdk asynStatus.asynSuccess simWorld (asynUser.request getPosition5 0)
        7).world.drv.params 0 getPosition5 = (asynStatus.asynParamWrongType, 0) ∧
    getDoubleParam
      (writeInt32 simSdk asynStatus.asynSuccess simWorld (asynUser.request getPosition5 0)
        7).world.drv.params 0 getPosition5 = (asynStatus.asynParamUndefined, 0) ∧
    (writeInt32 simSdk asynStatus.asynSuccess simWorld (asynUser.request getPosition5 0)
        7).world.drv.params = simWorld.drv.params ∧
    (setIntegerParam simWorld.drv.params 0 getPosition5 7).1 =
      asynStatus.asynParamWrongType := by
  decide

/-! ## C6, C7: reads of the other function ids -/

/-- Replacing the axes of the simulated device by as many axes keeps its error codes. -/
theorem SimHw.check_axes (hw : SimHw) (axes : List SimAxis) (devNo : Nat)
    (axisNo : Option Nat) (h : axes.length = hw.axes.length) :
    SimHw.check { hw with axes := axes } devNo axisNo = hw.check devNo axisNo := by
  simp [SimHw.check, h]

/-- The simulated vendor library honours reset. -/
theorem simSdk_honoursReset : HonoursReset simSdk := by
  intro hw devNo axisNo hok
  simp only [simSdk] at hok ⊢
  cases hax : hw.axes[axisNo]? with
  | none =>
      have hlen : ¬ axisNo < hw.axes.length := by
        intro hlt
        simp [List.getElem?_eq_getElem hlt] at hax
      rw [hax] at hok
      simp only [SimHw.check, hlen, if_false] at hok
      split_ifs at hok <;>
        simp [FPS_Ok, FPS_DeviceLocked, FPS_NoDevice, FPS_NotConnected, FPS_NoAxis] at hok
  | some ax =>
      have hlt : axisNo < hw.axes.length := by
        by_contra hge
        simp [List.getElem?_eq_none (Nat.le_of_not_lt hge)] at hax
      by_cases hc : hw.check devNo (some axisNo) = FPS_Ok
      · have hc2 := SimHw.check_axes hw
          (hw.axes.set axisNo { ax with error := 0, position := 0 }) devNo (some axisNo)
          (by simp)
        rw [hc] at hc2
        simp [hc, hc2, hlt]
      · rw [hax] at hok
        simp [hc] at hok

/-- C8, as found in the code: after `writeInt32(reset, axis, v)` with a vendor library
that honours reset and accepts the request, the write itself leaves the cache entries
`(axis, getPosition)` and `(axis, axisSignalWeak)` as they were; the next
`readFloat64(getPosition, axis)` returns 0 and stores 0 at `(axis, getPosition)`, and the
next `readInt32(axisValid, axis)` stores the cleared flag at `(axis, axisSignalWeak)`. -/
theorem writeInt32_reset_then_read {σ : Type} (sdk : Sdk σ) (cbStatus : asynStatus)
    (w : World σ) (pasynUser : asynUser) (a : Nat) (v : Int)
    (hwf : w.drv.WF) (ha : a < 3) (haddr : pasynUser.addr = a)
    (hfun : pasynUser.reason = reset6) (hsdk : HonoursReset sdk)
    (hok : (sdk.FPS_resetAxis w.env.hw w.drv.devNo a).code = FPS_Ok) :
    getDoubleParam (writeInt32 sdk cbStatus w pasynUser v).world.drv.params a getPosition5 =
      getDoubleParam w.drv.params a getPosition5 ∧
    getIntegerParam (writeInt32 sdk cbStatus w pasynUser v).world.drv.params a
      axisSignalWeak4 = getIntegerParam w.drv.params a axisSignalWeak4 ∧
    (readFloat64 sdk (writeInt32 sdk cbStatus w pasynUser v).world
      (asynUser.request getPosition5 a)).status = asynStatus.asynSuccess ∧
    (readFloat64 sdk (writeInt32 sdk cbStatus w pasynUser v).world
      (asynUser.request getPosition5 a)).value = some 0 ∧
    getDoubleParam (readFloat64 sdk (writeInt32 sdk cbStatus w pasynUser v).world
      (asynUser.request getPosition5 a)).world.drv.params a getPosition5 =
        (asynStatus.asynSuccess, 0) ∧
    getIntegerParam (readInt32 sdk (writeInt32 sdk cbStatus w pasynUser v).world
      (asynUser.request axisValid3 a)).world.drv.params a axisSignalWeak4 =
        (asynStatus.asynSuccess, 0) := by
  obtain ⟨l0, l1, l2, hp, h0, h1, h2⟩ := hwf.params_shape
  obtain ⟨a0, b0, c0, d0, e0, f0, rfl⟩ := l0.row_shape h0
  obtain ⟨a1, b1, c1, d1, e1, f1, rfl⟩ := l1.row_shape h1
  obtain ⟨a2, b2, c2, d2, e2, f2, rfl⟩ := l2.row_shape h2
  have hmax := hwf.1
  obtain ⟨hpos, herr⟩ := hsdk w.env.hw w.drv.devNo a hok
  interval_cases a <;> by_cases hcb : cbStatus = asynStatus.asynSuccess <;>
    simp [writeInt32, readFloat64, readInt32, asynUser.request, getAddress, hp, hmax, haddr,
      hfun, hcb, axisValid3, adjust1, axisSignalWeak4, getPosition5, reset6, setIntegerParam,
      getIntegerParam, setDoubleParam, getDoubleParam, paramList.setInteger,
      paramList.getInteger, paramList.setDouble, paramList.getDouble, toUnsigned]
      at hpos herr ⊢ <;>
    simp [hpos, herr]

/-- C8 on the simulated device: `writeInt32(reset, 0, 1)` after axis 0 was polled. -/
theorem writeInt32_reset_then_read_witness :
    polledWorld.drv.WF ∧
    (simSdk.FPS_resetAxis polledWorld.env.hw polledWorld.drv.devNo 0).code = FPS_Ok ∧
    (readFloat64 simSdk resetWorld (asynUser.request getPosition5 0)).value = some 0 ∧
    getIntegerParam (readInt32 simSdk resetWorld
      (asynUser.request axisValid3 0)).world.drv.params ((0 : Nat) : Int) axisSignalWeak4 =
        (asynStatus.asynSuccess, 0) :=
  have h := writeInt32_reset_then_read simSdk asynStatus.asynSuccess polledWorld
    (asynUser.request reset6 0) 0 1 (by decide) (by decide) rfl rfl simSdk_honoursReset
    (by decide)
  ⟨by decide, by decide, h.2.2.2.1, h.2.2.2.2.2⟩

/-- C8 as stated fails: the simulated device honours the reset of axis 0 (it then reports
position 0 and a cleared error flag), yet after `writeInt32(reset, 0, 1)` the cache entry
`(0, getPosition)` still holds 5 and `(0, axisSignalWeak)` still holds 1, which is also
what a read of `axisSignalWeak` returns. -/
theorem writeInt32_reset_cache_counterexample :
    (simSdk.FPS_resetAxis polledWorld.env.hw polledWorld.drv.devNo 0).code = FPS_Ok ∧
    (simSdk.FPS_getPosition resetWorld.env.hw resetWorld.drv.devNo 0).position = some 0 ∧
    (simSdk.FPS_getAxisStatus resetWorld.env.hw resetWorld.drv.devNo 0).error = some 0 ∧
    getDoubleParam resetWorld.drv.params 0 getPosition5 = (asynStatus.asynSuccess, 5) ∧
    getIntegerParam resetWorld.drv.params 0 axisSignalWeak4 = (asynStatus.asynSuccess, 1) ∧
    (readInt32 simSdk resetWorld (asynUser.request axisSignalWeak4 0)).status =
      asynStatus.asynSuccess ∧
    (readInt32 simSdk resetWorld (asynUser.request axisSignalWeak4 0)).value = some 1 := by
  decide

/-! ## C9: failing library calls in reads -/

/-- One failing read: when the library call of a read (function `adjust`, `axisValid` or
`getPosition`, address in 0..2) writes none of its outputs, the read returns success, and
the value it returns and stores at `(address, function)` is the content the scratch member
had before the call. -/
theorem read_failure_step {σ : Type} (sdk : Sdk σ) (w : World σ)
    (pasynUser : asynUser) (a : Nat)
    (hwf : w.drv.WF) (ha : a < 3) (haddr : pasynUser.addr = a) :
    (pasynUser.reason = adjust1 →
      (sdk.FPS_getDeviceStatus w.env.hw w.drv.devNo).code ≠ FPS_Ok →
      (sdk.FPS_getDeviceStatus w.env.hw w.drv.devNo).adjust = none →
      (sdk.FPS_getDeviceStatus w.env.hw w.drv.devNo).align = none →
        (readInt32 sdk w pasynUser).status = asynStatus.asynSuccess ∧
        (readInt32 sdk w pasynUser).value = some w.drv.adjust ∧
        getIntegerParam (readInt32 sdk w pasynUser).world.drv.params a adjust1 =
          (asynStatus.asynSuccess, w.drv.adjust)) ∧
    (pasynUser.reason = axisValid3 →
      (sdk.FPS_getAxisStatus w.env.hw w.drv.devNo a).code ≠ FPS_Ok →
      (sdk.FPS_getAxisStatus w.env.hw w.drv.devNo a).valid = none →
      (sdk.FPS_getAxisStatus w.env.hw w.drv.devNo a).error = none →
        (readInt32 sdk w pasynUser).status = asynStatus.asynSuccess ∧
        (readInt32 sdk w pasynUser).value = some w.drv.valid ∧
        getIntegerParam (readInt32 sdk w pasynUser).world.drv.params a axisValid3 =
          (asynStatus.asynSuccess, w.drv.valid)) ∧
    (pasynUser.reason = getPosition5 →
      (sdk.FPS_getPosition w.env.hw w.drv.devNo a).code ≠ FPS_Ok →
      (sdk.FPS_getPosition w.env.hw w.drv.devNo a).position = none →
        (readFloat64 sdk w pasynUser).status = asynStatus.asynSuccess ∧
        (readFloat64 sdk w pasynUser).value = some w.drv.position ∧
        getDoubleParam (readFloat64 sdk w pasynUser).world.drv.params a getPosition5 =
          (asynStatus.asynSuccess, w.drv.position)) := by
  obtain ⟨l0, l1, l2, hp, h0, h1, h2⟩ := hwf.params_shape
  obtain ⟨a0, b0, c0, d0, e0, f0, rfl⟩ := l0.row_shape h0
  obtain ⟨a1, b1, c1, d1, e1, f1, rfl⟩ := l1.row_shape h1
  obtain ⟨a2, b2, c2, d2, e2, f2, rfl⟩ := l2.row_shape h2
  have hmax := hwf.1
  refine ⟨?_, ?_, ?_⟩
  · intro hfun _ hadj hali
    interval_cases a <;>
      simp [readInt32, getAddress, hp, hmax, haddr, hfun, axisValid3, adjust1, align2,
        setIntegerParam, getIntegerParam, paramList.setInteger, paramList.getInteger,
        hadj, hali]
  · intro hfun _ hval herr
    interval_cases a <;>
      simp [readInt32, getAddress, hp, hmax, haddr, hfun, axisValid3, adjust1,
        axisSignalWeak4, setIntegerParam, getIntegerParam, paramList.setInteger,
        paramList.getInteger, toUnsigned] at hval herr ⊢ <;>
      simp [hval, herr]
  · intro hfun _ hpos
    interval_cases a <;>
      simp [readFloat64, getAddress, hp, hmax, haddr, hfun, getPosition5, setDoubleParam,
        getDoubleParam, paramList.setDouble, paramList.getDouble, toUnsigned] at hpos ⊢ <;>
      simp [hpos]

/-- The scratch members after one request: what the vendor library wrote during the
request, else the content before. -/
theorem serve_scratch {σ : Type} (sdk : Sdk σ) (w : World σ) (r : Request) :
    (serve sdk w r).drv.adjust = (sdkWrites sdk w r).adjust.getD w.drv.adjust ∧
    (serve sdk w r).drv.valid = (sdkWrites sdk w r).valid.getD w.drv.valid ∧
    (serve sdk w r).drv.position = (sdkWrites sdk w r).position.getD w.drv.position := by
  have hne : ¬ (adjust1 = axisValid3) := by decide
  have hne2 : ¬ (axisValid3 = adjust1) := by decide
  cases r with
  | readInt32 u =>
      by_cases hga : (getAddress w.drv u).1 = asynStatus.asynSuccess
      · by_cases h1 : u.reason = adjust1
        · simp only [serve, sdkWrites, readInt32, hga, h1, hne, ne_eq, not_true_eq_false,
            if_false, if_true]
          split_ifs <;> exact ⟨rfl, rfl, rfl⟩
        · by_cases h2 : u.reason = axisValid3
          · simp only [serve, sdkWrites, readInt32, hga, h1, h2, hne, hne2, ne_eq, not_true_eq_false,
              if_false, if_true]
            split_ifs <;> exact ⟨rfl, rfl, rfl⟩
          · simp only [serve, sdkWrites, readInt32, hga, h1, h2, hne, hne2, ne_eq, not_true_eq_false,
              if_false, if_true]
            split_ifs <;> exact ⟨rfl, rfl, rfl⟩
      · simp only [serve, sdkWrites, readInt32, hga, ne_eq, not_false_eq_true, if_false,
          if_true]
        exact ⟨rfl, rfl, rfl⟩
  | writeInt32 cb u v =>
      simp only [serve, sdkWrites, writeInt32]
      split_ifs <;> exact ⟨rfl, rfl, rfl⟩
  | readFloat64 u =>
      by_cases hga : (getAddress w.drv u).1 = asynStatus.asynSuccess
      · by_cases h1 : u.reason = getPosition5
        · simp only [serve, sdkWrites, readFloat64, hga, h1, ne_eq, not_true_eq_false,
            if_false, if_true, and_self]
          split_ifs <;> exact ⟨rfl, rfl, rfl⟩
        · simp only [serve, sdkWrites, readFloat64, hga, h1, ne_eq, not_true_eq_false,
            if_false, if_true, and_false]
          split_ifs <;> exact ⟨rfl, rfl, rfl⟩
      · simp only [serve, sdkWrites, readFloat64, hga, ne_eq, not_false_eq_true, if_false,
          if_true, false_and]
        exact ⟨rfl, rfl, rfl⟩

/-- The scratch members after a history hold what the vendor library last wrote there
during the history, or their initial content. -/
theorem serveAll_scratch {σ : Type} (sdk : Sdk σ) (rs : List Request) (w : World σ) :
    (serveAll sdk w rs).drv.adjust = lastWritten sdk Written.adjust w rs w.drv.adjust ∧
    (serveAll sdk w rs).drv.valid = lastWritten sdk Written.valid w rs w.drv.valid ∧
    (serveAll sdk w rs).drv.position =
      lastWritten sdk Written.position w rs w.drv.position := by
  induction rs generalizing w with
  | nil => exact ⟨rfl, rfl, rfl⟩
  | cons r rs ih =>
      obtain ⟨h1, h2, h3⟩ := serve_scratch sdk w r
      obtain ⟨i1, i2, i3⟩ := ih (serve sdk w r)
      simp only [serveAll, lastWritten]
      rw [i1, i2, i3, h1, h2, h3]
      exact ⟨rfl, rfl, rfl⟩

/-- Every history keeps the driver object well-formed. -/
theorem serveAll_WF {σ : Type} (sdk : Sdk σ) (rs : List Request) (w : World σ)
    (h : w.drv.WF) : (serveAll sdk w rs).drv.WF := by
  induction rs generalizing w with
  | nil => exact h
  | cons r rs ih =>
      apply ih
      cases r with
      | readInt32 u => exact readInt32_WF sdk w u h
      | writeInt32 cb u v => exact writeInt32_WF sdk cb w u v h
      | readFloat64 u => exact readFloat64_WF sdk w u h

/-- C9, as found in the code: after every history of requests on a well-formed driver
object, when the library call of a read (function `adjust`, `axisValid` or `getPosition`,
address in 0..2) returns a code other than Ok and writes none of its outputs, the read
still returns success, and the value it returns and stores in the cache at
`(address, function)` is the value the vendor library last wrote into the scratch member
of that output (`adjust`, `valid`, `position`) during the history, for whatever address,
or the content the member had at the start if the library never wrote there. -/
theorem read_failure_returns_last_written {σ : Type} (sdk : Sdk σ) (w : World σ)
    (history : List Request) (pasynUser : asynUser) (a : Nat)
    (hwf : w.drv.WF) (ha : a < 3) (haddr : pasynUser.addr = a) :
    (pasynUser.reason = adjust1 →
      (sdk.FPS_getDeviceStatus (serveAll sdk w history).env.hw
        (serveAll sdk w history).drv.devNo).code ≠ FPS_Ok →
      (sdk.FPS_getDeviceStatus (serveAll sdk w history).env.hw
        (serveAll sdk w history).drv.devNo).adjust = none →
      (sdk.FPS_getDeviceStatus (serveAll sdk w history).env.hw
        (serveAll sdk w history).drv.devNo).align = none →
        (readInt32 sdk (serveAll sdk w history) pasynUser).status = asynStatus.asynSuccess ∧
        (readInt32 sdk (serveAll sdk w history) pasynUser).value =
          some (lastWritten sdk Written.adjust w history w.drv.adjust) ∧
        getIntegerParam (readInt32 sdk (serveAll sdk w history) pasynUser).world.drv.params
          a adjust1 =
            (asynStatus.asynSuccess, lastWritten sdk Written.adjust w history w.drv.adjust)) ∧
    (pasynUser.reason = axisValid3 →
      (sdk.FPS_getAxisStatus (serveAll sdk w history).env.hw
        (serveAll sdk w history).drv.devNo a).code ≠ FPS_Ok →
      (sdk.FPS_getAxisStatus (serveAll sdk w history).env.hw
        (serveAll sdk w history).drv.devNo a).valid = none →
      (sdk.FPS_getAxisStatus (serveAll sdk w history).env.hw
        (serveAll sdk w history).drv.devNo a).error = none →
        (readInt32 sdk (serveAll sdk w history) pasynUser).status = asynStatus.asynSuccess ∧
        (readInt32 sdk (serveAll sdk w history) pasynUser).value =
          some (lastWritten sdk Written.valid w history w.drv.valid) ∧
        getIntegerParam (readInt32 sdk (serveAll sdk w history) pasynUser).world.drv.params
          a axisValid3 =
            (asynStatus.asynSuccess, lastWritten sdk Written.valid w history w.drv.valid)) ∧
    (pasynUser.reason = getPosition5 →
      (sdk.FPS_getPosition (serveAll sdk w history).env.hw
        (serveAll sdk w history).drv.devNo a).code ≠ FPS_Ok →
      (sdk.FPS_getPosition (serveAll sdk w history).env.hw
        (serveAll sdk w history).drv.devNo a).position = none →
        (readFloat64 sdk (serveAll sdk w history) pasynUser).status =
          asynStatus.asynSuccess ∧
        (readFloat64 sdk (serveAll sdk w history) pasynUser).value =
          some (lastWritten sdk Written.position w history w.drv.position) ∧
        getDoubleParam (readFloat64 sdk (serveAll sdk w history) pasynUser).world.drv.params
          a getPosition5 =
            (asynStatus.asynSuccess,
              lastWritten sdk Written.position w history w.drv.position)) := by
  have hstep := read_failure_step sdk (serveAll sdk w history) pasynUser a
    (serveAll_WF sdk history w hwf) ha haddr
  obtain ⟨s1, s2, s3⟩ := serveAll_scratch sdk history w
  rw [s1, s2, s3] at hstep
  exact hstep

/-- C9 on `flakySdk`, whose first query succeeds and whose later queries time out: after
one successful read at address 0 the failing read of the same function at address 2,
where nothing was ever cached, returns the value written for address 0 (1, 1 and 5). -/
theorem read_failure_returns_last_written_witness :
    flakyWorld.drv.WF ∧
    lastWritten flakySdk Written.adjust flakyWorld
      [Request.readInt32 (asynUser.request adjust1 0)] flakyWorld.drv.adjust = 1 ∧
    lastWritten flakySdk Written.valid flakyWorld
      [Request.readInt32 (asynUser.request axisValid3 0)] flakyWorld.drv.valid = 1 ∧
    lastWritten flakySdk Written.position flakyWorld
      [Request.readFloat64 (asynUser.request getPosition5 0)] flakyWorld.drv.position = 5 ∧
    getIntegerParam
      (serveAll flakySdk flakyWorld
        [Request.readInt32 (asynUser.request adjust1 0)]).drv.params 2 adjust1 =
        (asynStatus.asynParamUndefined, 0) ∧
    (readInt32 flakySdk
      (serveAll flakySdk flakyWorld [Request.readInt32 (asynUser.request adjust1 0)])
      (asynUser.request adjust1 2)).value =
        some (lastWritten flakySdk Written.adjust flakyWorld
          [Request.readInt32 (asynUser.request adjust1 0)] flakyWorld.drv.adjust) ∧
    (readInt32 flakySdk
      (serveAll flakySdk flakyWorld [Request.readInt32 (asynUser.request axisValid3 0)])
      (asynUser.request axisValid3 2)).value =
        some (lastWritten flakySdk Written.valid flakyWorld
          [Request.readInt32 (asynUser.request axisValid3 0)] flakyWorld.drv.valid) ∧
    (readFloat64 flakySdk
      (serveAll flakySdk flakyWorld [Request.readFloat64 (asynUser.request getPosition5 0)])
      (asynUser.request getPosition5 2)).value =
        some (lastWritten flakySdk Written.position flakyWorld
          [Request.readFloat64 (asynUser.request getPosition5 0)]
          flakyWorld.drv.position) :=
  ⟨by decide, by decide, by decide, by decide, by decide,
   ((read_failure_returns_last_written flakySdk flakyWorld
      [Request.readInt32 (asynUser.request adjust1 0)] (asynUser.request adjust1 2) 2
      (by decide) (by decide) rfl).1 rfl (by decide) (by decide) (by decide)).2.1,
   ((read_failure_returns_last_written flakySdk flakyWorld
      [Request.readInt32 (asynUser.request axisValid3 0)] (asynUser.request axisValid3 2) 2
      (by decide) (by decide) rfl).2.1 rfl (by decide) (by decide) (by decide)).2.1,
   ((read_failure_returns_last_written flakySdk flakyWorld
      [Request.readFloat64 (asynUser.request getPosition5 0)]
      (asynUser.request getPosition5 2) 2
      (by decide) (by decide) rfl).2.2 rfl (by decide) (by decide)).2.1⟩

/-- C9 as stated fails: on a device with the single axis 0, after one successful status
read of axis 0 the status query for axis 1 fails with code 10 and writes nothing, the
cache entry `(1, axisValid)` was never set, and yet the read of `axisValid` at address 1
returns success with value 1, the value last reported for axis 0. -/
theorem read_failure_stale_counterexample :
    (simSdk.FPS_getAxisStatus oneAxisPolled.env.hw oneAxisPolled.drv.devNo 1).code
      = FPS_NoAxis ∧
    (simSdk.FPS_getAxisStatus oneAxisPolled.env.hw oneAxisPolled.drv.devNo 1).valid = none ∧
    (simSdk.FPS_getAxisStatus oneAxisPolled.env.hw oneAxisPolled.drv.devNo 1).error = none ∧
    getIntegerParam oneAxisPolled.drv.params 1 axisValid3 =
      (asynStatus.asynParamUndefined, 0) ∧
    (readInt32 simSdk oneAxisPolled (asynUser.request axisValid3 1)).status =
      asynStatus.asynSuccess ∧
    (readInt32 simSdk oneAxisPolled (asynUser.request axisValid3 1)).value = some 1 ∧
    (readInt32 simSdk oneAxisPolled (asynUser.request axisValid3 1)).value ≠ some 0 := by
  decide

/-! ## C10: status of a failed cache access -/

/-- C10 at the failing input: the integer store into the float64 parameter `getPosition`
(and into the unregistered id 6) is refused by the parameter library, yet `writeInt32`
returns success and leaves the error message untouched, because the status of the store
is overwritten by the status of `callParamCallbacks`; `readInt32` on the same pair
returns the failure status of its cache access and fills the error message. -/
theorem writeInt32_hides_cache_failure :
    (setIntegerParam simWorld.drv.params 0 getPosition5 7).1 =
      asynStatus.asynParamWrongType ∧
    (writeInt32 simSdk asynStatus.asynSuccess simWorld (asynUser.request getPosition5 0)
      7).status = asynStatus.asynSuccess ∧
    (writeInt32 simSdk asynStatus.asynSuccess simWorld (asynUser.request getPosition5 0)
      7).pasynUser.errorMessage = none ∧
    (setIntegerParam simWorld.drv.params 0 6 7).1 = asynStatus.asynParamBadIndex ∧
    (writeInt32 simSdk asynStatus.asynSuccess simWorld (asynUser.request 6 0) 7).status =
      asynStatus.asynSuccess ∧
    (readInt32 simSdk simWorld (asynUser.request getPosition5 0)).status =
      asynStatus.asynParamWrongType ∧
    (readInt32 simSdk simWorld (asynUser.request getPosition5 0)).pasynUser.errorMessage =
      some { fmt := "%s:%s: status=%d, function=%d, value=%d",
             args := [FmtArg.str "blcfpszzhDriver", FmtArg.str "readInt32", FmtArg.int 8,
                      FmtArg.int 4, FmtArg.int 0] } := by
  decide

/-! ## C11: position read at an address outside 0..2 -/

/-- C11, as found in the code: a `readFloat64` request (function `getPosition` or any
other) whose address lies outside 0..2, -1 apart, is refused by `getAddress`: the call
returns `asynError`, writes no value, makes no library call and leaves the device, the
driver object and the user record as they were. -/
theorem readFloat64_bad_address {σ : Type} (sdk : Sdk σ) (w : World σ)
    (pasynUser : asynUser) (hwf : w.drv.WF)
    (hout : pasynUser.addr < -1 ∨ 2 < pasynUser.addr) :
    (readFloat64 sdk w pasynUser).status = asynStatus.asynError ∧
    (readFloat64 sdk w pasynUser).value = none ∧
    (readFloat64 sdk w pasynUser).world.env.calls = w.env.calls ∧
    (readFloat64 sdk w pasynUser).world.env.hw = w.env.hw ∧
    (readFloat64 sdk w pasynUser).world.drv = w.drv ∧
    (readFloat64 sdk w pasynUser).pasynUser = pasynUser := by
  have hmax := hwf.1
  have hne : pasynUser.addr ≠ -1 := by omega
  have hga : (getAddress w.drv pasynUser).1 = asynStatus.asynError := by
    simp only [getAddress, hmax, hne, if_false]
    rw [if_pos (by omega)]
  simp [readFloat64, hga]

/-- C11 on the simulated device: address 3 is refused before any library call, while
address -1 is served as address 0. -/
theorem readFloat64_bad_address_witness :
    simWorld.drv.WF ∧
    (readFloat64 simSdk simWorld (asynUser.request getPosition5 3)).status =
      asynStatus.asynError ∧
    (readFloat64 simSdk simWorld (asynUser.request getPosition5 3)).world.env.calls =
      simWorld.env.calls ∧
    (readFloat64 simSdk simWorld (asynUser.request getPosition5 (-1))).world.env.calls =
      simWorld.env.calls ++ [SdkCall.getPosition 0 0] ∧
    (readFloat64 simSdk simWorld (asynUser.request getPosition5 (-1))).value = some 5 :=
  have h := readFloat64_bad_address simSdk simWorld (asynUser.request getPosition5 3)
    (by decide) (by decide)
  ⟨by decide, h.1, h.2.2.1, by decide, by decide⟩

/-- C11 as stated fails: the simulated library would answer a position query for axis 3
with code 10, but `readFloat64(getPosition)` at address 3 never asks it: the list of
library calls is unchanged and holds no `getPosition` call for axis 3, and the failure
returned is `asynError` of the address check, with no value written. -/
theorem readFloat64_bad_address_counterexample :
    (simSdk.FPS_getPosition simWorld.env.hw simWorld.drv.devNo 3).code = FPS_NoAxis ∧
    (readFloat64 simSdk simWorld (asynUser.request getPosition5 3)).world.env.calls =
      simWorld.env.calls ∧
    SdkCall.getPosition simWorld.drv.devNo 3 ∉
      (readFloat64 simSdk simWorld (asynUser.request getPosition5 3)).world.env.calls ∧
    (readFloat64 simSdk simWorld (asynUser.request getPosition5 3)).status =
      asynStatus.asynError ∧
    (readFloat64 simSdk simWorld (asynUser.request getPosition5 3)).value = none := by
  decide

/-! ## C12, C13: construction -/

/-- C12: for every port name, every `int` argument `devNo` and every vendor library,
whatever codes it returns, `blcfpsConfigure` returns 0 and makes exactly the library
calls discover, connect, startAdjustment, each once and in that order, the last two with
`devNo` converted to `unsigned int`, which is `n` itself for a sequence number `n`. -/
theorem blcfpsConfigure_never_fails {σ : Type} (sdk : Sdk σ) (env : Env σ)
    (portName : String) (devNo : Int) (timeStamp : Nat) (raw : Uninit) :
    (blcfpsConfigure sdk env portName devNo timeStamp raw).1 = 0 ∧
    (blcfpsConfigure sdk env portName devNo timeStamp raw).2.env.calls =
      env.calls ++ [SdkCall.discover FPS_InterfaceType.IfUsb,
        SdkCall.connect (toUnsigned devNo), SdkCall.startAdjustment (toUnsigned devNo)] ∧
    (blcfpsConfigure sdk env portName devNo timeStamp raw).2.env.hw =
      (sdk.FPS_startAdjustment
        (sdk.FPS_connect (sdk.FPS_discover env.hw FPS_InterfaceType.IfUsb).hw
          (toUnsigned devNo)).hw (toUnsigned devNo)).hw ∧
    (∀ n : Nat, devNo = n → n < 4294967296 →
      (blcfpsConfigure sdk env portName devNo timeStamp raw).2.env.calls =
        env.calls ++ [SdkCall.discover FPS_InterfaceType.IfUsb, SdkCall.connect n,
          SdkCall.startAdjustment n]) := by
  refine ⟨rfl, rfl, rfl, ?_⟩
  intro n hn hlt
  subst hn
  simp [blcfpsConfigure, blcfps.new, toUnsigned_natCast n hlt]

/-- C12 on a vendor library whose three construction calls all fail. -/
theorem blcfpsConfigure_never_fails_witness :
    (failSdk.FPS_discover () FPS_InterfaceType.IfUsb).code ≠ FPS_Ok ∧
    (failSdk.FPS_connect () 0).code ≠ FPS_Ok ∧
    (failSdk.FPS_startAdjustment () 0).code ≠ FPS_Ok ∧
    (blcfpsConfigure failSdk (Env.start ()) "FPS" 0 0 Uninit.zero).1 = 0 ∧
    (blcfpsConfigure failSdk (Env.start ()) "FPS" 0 0 Uninit.zero).2.env.calls =
      (Env.start ()).calls ++ [SdkCall.discover FPS_InterfaceType.IfUsb, SdkCall.connect 0,
        SdkCall.startAdjustment 0] :=
  have h := blcfpsConfigure_never_fails failSdk (Env.start ()) "FPS" 0 0 Uninit.zero
  ⟨by decide, by decide, by decide, h.1, h.2.2.2 0 rfl (by decide)⟩

/-- C13, as found in the code: for every constructed driver object the interface mask
passed to `FPS_discover` is the member `type`, initialised to `IfUsb` (0x01, USB only);
it is not `IfAll` (0x03). -/
theorem blcfps_new_discovers_usb {σ : Type} (sdk : Sdk σ) (env : Env σ)
    (portName : String) (devNo_ : Int) (timeStamp : Nat) (raw : Uninit) :
    (blcfps.new sdk env portName devNo_ timeStamp raw).env.calls =
      env.calls ++ [SdkCall.discover FPS_InterfaceType.IfUsb,
        SdkCall.connect (toUnsigned devNo_), SdkCall.startAdjustment (toUnsigned devNo_)] ∧
    (blcfps.new sdk env portName devNo_ timeStamp raw).drv.type = FPS_InterfaceType.IfUsb ∧
    (blcfps.new sdk env portName devNo_ timeStamp raw).drv.devNum =
      (sdk.FPS_discover env.hw FPS_InterfaceType.IfUsb).devCount.getD raw.devNum ∧
    FPS_InterfaceType.IfUsb.toNat = 1 ∧
    FPS_InterfaceType.IfUsb ≠ FPS_InterfaceType.IfAll := by
  refine ⟨rfl, rfl, rfl, rfl, by decide⟩

/-- C13 as stated fails: the driver constructed on the simulated device called discover
with `IfUsb`, whose value is 1, and made no discover call with `IfAll`, whose value is 3. -/
theorem blcfps_new_discover_counterexample :
    simWorld.env.calls = [SdkCall.discover FPS_InterfaceType.IfUsb, SdkCall.connect 0,
      SdkCall.startAdjustment 0] ∧
    SdkCall.discover FPS_InterfaceType.IfAll ∉ simWorld.env.calls ∧
    FPS_InterfaceType.IfUsb.toNat = 1 ∧
    FPS_InterfaceType.IfAll.toNat = 3 ∧
    FPS_InterfaceType.IfUsb.toNat ≠ FPS_InterfaceType.IfAll.toNat := by
  decide

/-! ## C14: isolation of the addresses -/

/-- An integer store at one address leaves the slots of every other address as they
were. -/
theorem setIntegerParam_other_row (params : List paramList) (list index value : Int)
    (c : Nat) (hc : (c : Int) ≠ list) :
    (setIntegerParam params list index value).2[c]? = params[c]? := by
  unfold setIntegerParam
  split_ifs with h
  · rfl
  · split
    · have hne : list.toNat ≠ c := by omega
      simp [List.getElem?_set, hne]
    · rfl

/-- A float64 store at one address leaves the slots of every other address as they
were. -/
theorem setDoubleParam_other_row (params : List paramList) (list index : Int)
    (value : Double) (c : Nat) (hc : (c : Int) ≠ list) :
    (setDoubleParam params list index value).2[c]? = params[c]? := by
  unfold setDoubleParam
  split_ifs with h
  · rfl
  · split
    · have hne : list.toNat ≠ c := by omega
      simp [List.getElem?_set, hne]
    · rfl

/-- An integer cache read at address `c` depends on the slots of address `c` only. -/
theorem getIntegerParam_congr_row (p q : List paramList) (c : Nat) (index : Int)
    (h : p[c]? = q[c]?) : getIntegerParam p c index = getIntegerParam q c index := by
  unfold getIntegerParam
  by_cases hp : c < p.length <;> by_cases hq : c < q.length
  · have h1 : ¬ ((c : Int) < 0 ∨ (p.length : Int) ≤ c) := by omega
    have h2 : ¬ ((c : Int) < 0 ∨ (q.length : Int) ≤ c) := by omega
    simp only [h1, h2, if_false, Int.toNat_ofNat, h]
  · rw [List.getElem?_eq_getElem hp, List.getElem?_eq_none (Nat.le_of_not_lt hq)] at h
    exact absurd h (by simp)
  · rw [List.getElem?_eq_none (Nat.le_of_not_lt hp), List.getElem?_eq_getElem hq] at h
    exact absurd h (by simp)
  · have h1 : ((c : Int) < 0 ∨ (p.length : Int) ≤ c) := by omega
    have h2 : ((c : Int) < 0 ∨ (q.length : Int) ≤ c) := by omega
    simp only [h1, h2, if_true]

/-- A float64 cache read at address `c` depends on the slots of address `c` only. -/
theorem getDoubleParam_congr_row (p q : List paramList) (c : Nat) (index : Int)
    (h : p[c]? = q[c]?) : getDoubleParam p c index = getDoubleParam q c index := by
  unfold getDoubleParam
  by_cases hp : c < p.length <;> by_cases hq : c < q.length
  · have h1 : ¬ ((c : Int) < 0 ∨ (p.length : Int) ≤ c) := by omega
    have h2 : ¬ ((c : Int) < 0 ∨ (q.length : Int) ≤ c) := by omega
    simp only [h1, h2, if_false, Int.toNat_ofNat, h]
  · rw [List.getElem?_eq_getElem hp, List.getElem?_eq_none (Nat.le_of_not_lt hq)] at h
    exact absurd h (by simp)
  · rw [List.getElem?_eq_none (Nat.le_of_not_lt hp), List.getElem?_eq_getElem hq] at h
    exact absurd h (by simp)
  · have h1 : ((c : Int) < 0 ∨ (p.length : Int) ≤ c) := by omega
    have h2 : ((c : Int) < 0 ∨ (q.length : Int) ≤ c) := by omega
    simp only [h1, h2, if_true]

/-- The address handed out by `getAddress` for a request at address `a`. -/
theorem getAddress_natCast (this : blcfps) (pasynUser : asynUser) (a : Nat)
    (haddr : pasynUser.addr = a) : (getAddress this pasynUser).2 = a := by
  have hne : pasynUser.addr ≠ -1 := by omega
  simp only [getAddress, hne, if_false]
  split_ifs <;> exact haddr

/-- The slots of address `c` after `readInt32` at another address `a`. -/
theorem readInt32_other_row {σ : Type} (sdk : Sdk σ) (w : World σ) (pasynUser : asynUser)
    (a c : Nat) (haddr : pasynUser.addr = a) (hc : c ≠ a) :
    (readInt32 sdk w pasynUser).world.drv.params[c]? = w.drv.params[c]? := by
  have hga := getAddress_natCast w.drv pasynUser a haddr
  have hca : (c : Int) ≠ (a : Int) := by omega
  unfold readInt32
  simp only [hga]
  split_ifs <;> simp [setIntegerParam_other_row, hca]

/-- The slots of address `c` after `writeInt32` at another address `a`. -/
theorem writeInt32_other_row {σ : Type} (sdk : Sdk σ) (cbStatus : asynStatus) (w : World σ)
    (pasynUser : asynUser) (value : Int) (a c : Nat) (haddr : pasynUser.addr = a)
    (hc : c ≠ a) :
    (writeInt32 sdk cbStatus w pasynUser value).world.drv.params[c]? = w.drv.params[c]? := by
  have hga := getAddress_natCast w.drv pasynUser a haddr
  have hca : (c : Int) ≠ (a : Int) := by omega
  unfold writeInt32
  simp only [hga]
  split_ifs <;> simp [setIntegerParam_other_row, hca]

/-- The slots of address `c` after `readFloat64` at another address `a`. -/
theorem readFloat64_other_row {σ : Type} (sdk : Sdk σ) (w : World σ)
    (pasynUser : asynUser) (a c : Nat) (haddr : pasynUser.addr = a) (hc : c ≠ a) :
    (readFloat64 sdk w pasynUser).world.drv.params[c]? = w.drv.params[c]? := by
  have hga := getAddress_natCast w.drv pasynUser a haddr
  have hca : (c : Int) ≠ (a : Int) := by omega
  unfold readFloat64
  simp only [hga]
  split_ifs <;> simp [setDoubleParam_other_row, hca]

/-- C14: for every address `a` (in particular 0, 1 and 2), every function id and every
vendor library, a call of `readInt32`, `writeInt32` or `readFloat64` at address `a`
leaves the slots of every other address `c` as they were, so every integer and float64
cache entry at `c` reads the same after the call as before it. -/
theorem cache_isolation {σ : Type} (sdk : Sdk σ) (cbStatus : asynStatus) (w : World σ)
    (pasynUser : asynUser) (value : Int) (a c : Nat)
    (haddr : pasynUser.addr = a) (hc : c ≠ a) :
    ((readInt32 sdk w pasynUser).world.drv.params[c]? = w.drv.params[c]? ∧
      ∀ index : Int,
        getIntegerParam (readInt32 sdk w pasynUser).world.drv.params c index =
          getIntegerParam w.drv.params c index ∧
        getDoubleParam (readInt32 sdk w pasynUser).world.drv.params c index =
          getDoubleParam w.drv.params c index) ∧
    ((writeInt32 sdk cbStatus w pasynUser value).world.drv.params[c]? = w.drv.params[c]? ∧
      ∀ index : Int,
        getIntegerParam (writeInt32 sdk cbStatus w pasynUser value).world.drv.params c index =
          getIntegerParam w.drv.params c index ∧
        getDoubleParam (writeInt32 sdk cbStatus w pasynUser value).world.drv.params c index =
          getDoubleParam w.drv.params c index) ∧
    ((readFloat64 sdk w pasynUser).world.drv.params[c]? = w.drv.params[c]? ∧
      ∀ index : Int,
        getIntegerParam (readFloat64 sdk w pasynUser).world.drv.params c index =
          getIntegerParam w.drv.params c index ∧
        getDoubleParam (readFloat64 sdk w pasynUser).world.drv.params c index =
          getDoubleParam w.drv.params c index) := by
  have h1 := readInt32_other_row sdk w pasynUser a c haddr hc
  have h2 := writeInt32_other_row sdk cbStatus w pasynUser value a c haddr hc
  have h3 := readFloat64_other_row sdk w pasynUser a c haddr hc
  exact ⟨⟨h1, fun index => ⟨getIntegerParam_congr_row _ _ c index h1,
      getDoubleParam_congr_row _ _ c index h1⟩⟩,
    ⟨h2, fun index => ⟨getIntegerParam_congr_row _ _ c index h2,
      getDoubleParam_congr_row _ _ c index h2⟩⟩,
    ⟨h3, fun index => ⟨getIntegerParam_congr_row _ _ c index h3,
      getDoubleParam_congr_row _ _ c index h3⟩⟩⟩

/-- C14 on the polled simulated device: calls at address 1 (status read, reset write,
position read) leave the entries of address 0 (position 5, signalWeak 1) as they are. -/
theorem cache_isolation_witness :
    getIntegerParam (readInt32 simSdk polledWorld
        (asynUser.request axisValid3 1)).world.drv.params ((0 : Nat) : Int) axisSignalWeak4 =
      getIntegerParam polledWorld.drv.params ((0 : Nat) : Int) axisSignalWeak4 ∧
    getDoubleParam (writeInt32 simSdk asynStatus.asynSuccess polledWorld
        (asynUser.request reset6 1) 0).world.drv.params ((0 : Nat) : Int) getPosition5 =
      getDoubleParam polledWorld.drv.params ((0 : Nat) : Int) getPosition5 ∧
    getDoubleParam (readFloat64 simSdk polledWorld
        (asynUser.request getPosition5 1)).world.drv.params ((0 : Nat) : Int) getPosition5 =
      getDoubleParam polledWorld.drv.params ((0 : Nat) : Int) getPosition5 ∧
    getDoubleParam polledWorld.drv.params ((0 : Nat) : Int) getPosition5 =
      (asynStatus.asynSuccess, 5) :=
  ⟨((cache_isolation simSdk asynStatus.asynSuccess polledWorld
      (asynUser.request axisValid3 1) 0 1 0 rfl (by decide)).1.2
        axisSignalWeak4).1,
   ((cache_isolation simSdk asynStatus.asynSuccess polledWorld
      (asynUser.request reset6 1) 0 1 0 rfl (by decide)).2.1.2
        getPosition5).2,
   ((cache_isolation simSdk asynStatus.asynSuccess polledWorld
      (asynUser.request getPosition5 1) 0 1 0 rfl (by decide)).2.2.2
        getPosition5).2,
   by decide⟩

end Fps3010
